import Mathlib

/-!
Verification of the pressure-vessel calculation engine

Shallow embedding of the vessel model of the repository
(pressurevessels/PressureVessels.py, class Vessel) and the sweep guard
(pressurevessels/gui.py, check_diameters).

Modelling conventions:
* Python floats are modelled as real numbers.
* A Python ZeroDivisionError is modelled with an Except monad: every
  division the source performs is guarded by an explicit zero test on its
  divisor, failing exactly where Python would raise.  Because Python
  leaves on the instance every attribute assigned before the raise, the
  error value carries, next to PyErr.zeroDivision, the state of the
  object at the moment of the raise (calculate assigns external before
  get_stresses can raise; get_safetyfactors assigns k before its
  divisions; get_safetyfactors assigns SF_room before the derated
  divisions), so those partial updates stay observable.
* The mutable Vessel object is a record; each method that mutates the
  object is a function from the record to an Except of the updated
  record, whose error side also holds the record as mutated so far.
  Fields that Python only creates inside calculate are given default
  values; they are overwritten before any successful recompute
  returns.
* The stress formulas are factored into functions of the four inputs
  they read (pExt, pInt, OD, ID), exactly as the methods unpack those
  attributes into locals before computing.
* The truthiness test (if kwarg:) of modify_parameters is modelled by
  overrideTruthy: a keyword argument is applied only when it is present
  and nonzero, exactly as Python evaluates the test.
-/

/-- Python ZeroDivisionError. -/
inductive PyErr where
  | zeroDivision
deriving DecidableEq

/-- The Vessel object: the six user-supplied inputs followed by the
derived fields that calculate() stores on the instance. -/
structure Vessel where
  pExt : ℝ
  pInt : ℝ
  OD : ℝ
  ID : ℝ
  yieldstress : ℝ
  deratedyieldstress : ℝ
  external : Bool := false
  maxstress : ℝ := 0
  averagestress : ℝ := 0
  k : ℝ := 0
  SF_room : ℝ := 0
  SF_derated : ℝ := 0
  maxExtroom : ℝ := 0
  maxIntroom : ℝ := 0
  maxExtderated : ℝ := 0
  maxIntderated : ℝ := 0

namespace Vessel

/-- Inner-surface hoop stress formula from _principalstressINT. -/
noncomputable def hoopINT (pExt pInt OD ID : ℝ) : ℝ :=
  pInt * (OD ^ 2 + ID ^ 2) / (OD ^ 2 - ID ^ 2)
    - 2 * pExt * OD ^ 2 / (OD ^ 2 - ID ^ 2)

/-- Axial stress formula from _principalstressINT. -/
noncomputable def axialINT (pExt pInt OD ID : ℝ) : ℝ :=
  pInt * ID ^ 2 / (OD ^ 2 - ID ^ 2) - pExt * OD ^ 2 / (OD ^ 2 - ID ^ 2)

/-- Outer-surface hoop stress formula from _principalstressEXT. -/
noncomputable def hoopEXT (pExt pInt OD ID : ℝ) : ℝ :=
  2 * pInt * ID ^ 2 / (OD ^ 2 - ID ^ 2)
    - pExt * (OD ^ 2 + ID ^ 2) / (OD ^ 2 - ID ^ 2)

/-- Axial stress formula from _principalstressEXT (textually the same
expression as in _principalstressINT). -/
noncomputable def axialEXT (pExt pInt OD ID : ℝ) : ℝ :=
  pInt * ID ^ 2 / (OD ^ 2 - ID ^ 2) - pExt * OD ^ 2 / (OD ^ 2 - ID ^ 2)

/-- Method _principalstressINT: the (hoop, axial, radial) triple at the
inner surface.  Python raises ZeroDivisionError when the shared
denominator OD^2 - ID^2 is zero. -/
noncomputable def _principalstressINT (v : Vessel) : Except PyErr (ℝ × ℝ × ℝ) :=
  if v.OD ^ 2 - v.ID ^ 2 = 0 then Except.error PyErr.zeroDivision
  else Except.ok (hoopINT v.pExt v.pInt v.OD v.ID,
                  axialINT v.pExt v.pInt v.OD v.ID, -v.pInt)

/-- Method _principalstressEXT: the (hoop, axial, radial) triple at the
outer surface. -/
noncomputable def _principalstressEXT (v : Vessel) : Except PyErr (ℝ × ℝ × ℝ) :=
  if v.OD ^ 2 - v.ID ^ 2 = 0 then Except.error PyErr.zeroDivision
  else Except.ok (hoopEXT v.pExt v.pInt v.OD v.ID,
                  axialEXT v.pExt v.pInt v.OD v.ID, -v.pExt)

/-- Method _vonmises: von Mises stress of three principal stresses.
math.sqrt never raises here because its argument is a sum of squares. -/
noncomputable def _vonmises (s1 s2 s3 : ℝ) : ℝ :=
  Real.sqrt (0.5 * ((s1 - s2) ^ 2 + (s2 - s3) ^ 2 + (s3 - s1) ^ 2))

/-- Method _safetyfactor: allowable / value, raising ZeroDivisionError
when value is zero. -/
noncomputable def _safetyfactor (value allowable : ℝ) : Except PyErr ℝ :=
  if value = 0 then Except.error PyErr.zeroDivision
  else Except.ok (allowable / value)

/-- Outer-surface von Mises stress as a function of the inputs. -/
noncomputable def vmEXT (pExt pInt OD ID : ℝ) : ℝ :=
  _vonmises (hoopEXT pExt pInt OD ID) (axialEXT pExt pInt OD ID) (-pExt)

/-- Inner-surface von Mises stress as a function of the inputs. -/
noncomputable def vmINT (pExt pInt OD ID : ℝ) : ℝ :=
  _vonmises (hoopINT pExt pInt OD ID) (axialINT pExt pInt OD ID) (-pInt)

/-- The maxstress value a successful recompute stores. -/
noncomputable def maxstressOf (pExt pInt OD ID : ℝ) : ℝ :=
  max (vmEXT pExt pInt OD ID) (vmINT pExt pInt OD ID)

/-- The averagestress value a successful recompute stores. -/
noncomputable def averagestressOf (pExt pInt OD ID : ℝ) : ℝ :=
  (vmEXT pExt pInt OD ID + vmINT pExt pInt OD ID) / 2

/-- Method get_stresses: stores maxstress and averagestress, the max and
mean of the outer and inner von Mises stresses (the outer surface is
evaluated first, as in the source). -/
noncomputable def get_stresses (v : Vessel) : Except (PyErr × Vessel) Vessel :=
  match v._principalstressEXT with
  | Except.error e => Except.error (e, v)
  | Except.ok (e1, e2, e3) =>
    match v._principalstressINT with
    | Except.error e => Except.error (e, v)
    | Except.ok (i1, i2, i3) =>
      let vmExt := _vonmises e1 e2 e3
      let vmInt := _vonmises i1 i2 i3
      Except.ok { v with maxstress := max vmExt vmInt,
                         averagestress := (vmExt + vmInt) / 2 }

/-- Method get_safetyfactors: sets k from the external flag, then the
room and derated safety factors, each the min of the peak-stress check
and the membrane check (the four _safetyfactor calls are evaluated in
source order, so the first zero divisor raises). -/
noncomputable def get_safetyfactors (v : Vessel) :
    Except (PyErr × Vessel) Vessel :=
  let k : ℝ := if v.external then 0.80 else 0.666666
  let v1 : Vessel := { v with k := k }
  match _safetyfactor v1.maxstress v1.yieldstress with
  | Except.error e => Except.error (e, v1)
  | Except.ok sfr1 =>
    match _safetyfactor v1.averagestress (v1.yieldstress * k) with
    | Except.error e => Except.error (e, v1)
    | Except.ok sfr2 =>
      let v2 : Vessel := { v1 with SF_room := min sfr1 sfr2 }
      match _safetyfactor v2.maxstress v2.deratedyieldstress with
      | Except.error e => Except.error (e, v2)
      | Except.ok sfd1 =>
        match _safetyfactor v2.averagestress (v2.deratedyieldstress * k) with
        | Except.error e => Except.error (e, v2)
        | Except.ok sfd2 =>
          Except.ok { v2 with SF_derated := min sfd1 sfd2 }

/-- Method get_maxpressures: every rating is the safety factor times the
absolute differential pressure.  No division occurs, so no error. -/
noncomputable def get_maxpressures (v : Vessel) : Vessel :=
  let differentialpressure := |v.pExt - v.pInt|
  { v with maxExtroom := v.SF_room * differentialpressure,
           maxIntroom := v.SF_room * differentialpressure,
           maxExtderated := v.SF_derated * differentialpressure,
           maxIntderated := v.SF_derated * differentialpressure }

/-- Method calculate: sets the external flag from pExt > pInt, then runs
get_stresses, get_safetyfactors and get_maxpressures in order. -/
noncomputable def calculate (v : Vessel) : Except (PyErr × Vessel) Vessel :=
  match get_stresses { v with external := decide (v.pExt > v.pInt) } with
  | Except.error r => Except.error r
  | Except.ok v2 =>
    match get_safetyfactors v2 with
    | Except.error r => Except.error r
    | Except.ok v3 => Except.ok (get_maxpressures v3)

/-- Constructor __init__: store the six inputs and run calculate. -/
noncomputable def create (pExt pInt OD ID yieldstress deratedyieldstress : ℝ) :
    Except (PyErr × Vessel) Vessel :=
  calculate { pExt := pExt, pInt := pInt, OD := OD, ID := ID,
              yieldstress := yieldstress,
              deratedyieldstress := deratedyieldstress }

/-- Python truthiness applied to an optional keyword argument: the field
is replaced only when the argument is present and nonzero, modelling the
if kwarg: test of the source (None and 0.0 are both falsy). -/
noncomputable def overrideTruthy (cur : ℝ) (new? : Option ℝ) : ℝ :=
  match new? with
  | none => cur
  | some x => if x = 0 then cur else x

/-- Method modify_parameters: apply the six optional keyword overrides
through the truthiness test, then run calculate. -/
noncomputable def modify_parameters (v : Vessel)
    (pExt pInt OD ID yieldstress deratedyieldstress : Option ℝ) :
    Except (PyErr × Vessel) Vessel :=
  calculate { v with pExt := overrideTruthy v.pExt pExt,
                     pInt := overrideTruthy v.pInt pInt,
                     OD := overrideTruthy v.OD OD,
                     ID := overrideTruthy v.ID ID,
                     yieldstress := overrideTruthy v.yieldstress yieldstress,
                     deratedyieldstress :=
                       overrideTruthy v.deratedyieldstress deratedyieldstress }

/-- The full record a successful calculate returns: the inputs are kept
and every derived field is recomputed from them. -/
noncomputable def calcResult (v : Vessel) : Vessel :=
  let ms := maxstressOf v.pExt v.pInt v.OD v.ID
  let avs := averagestressOf v.pExt v.pInt v.OD v.ID
  let kv : ℝ := if decide (v.pExt > v.pInt) then 0.80 else 0.666666
  let sfr := min (v.yieldstress / ms) (v.yieldstress * kv / avs)
  let sfd := min (v.deratedyieldstress / ms) (v.deratedyieldstress * kv / avs)
  let dp := |v.pExt - v.pInt|
  { v with external := decide (v.pExt > v.pInt),
           maxstress := ms, averagestress := avs, k := kv,
           SF_room := sfr, SF_derated := sfd,
           maxExtroom := sfr * dp, maxIntroom := sfr * dp,
           maxExtderated := sfd * dp, maxIntderated := sfd * dp }

@[simp] lemma calcResult_pExt (v : Vessel) : v.calcResult.pExt = v.pExt := rfl

@[simp] lemma calcResult_pInt (v : Vessel) : v.calcResult.pInt = v.pInt := rfl

@[simp] lemma calcResult_OD (v : Vessel) : v.calcResult.OD = v.OD := rfl

@[simp] lemma calcResult_ID (v : Vessel) : v.calcResult.ID = v.ID := rfl

@[simp] lemma calcResult_yieldstress (v : Vessel) :
    v.calcResult.yieldstress = v.yieldstress := rfl

@[simp] lemma calcResult_deratedyieldstress (v : Vessel) :
    v.calcResult.deratedyieldstress = v.deratedyieldstress := rfl

@[simp] lemma calcResult_external (v : Vessel) :
    v.calcResult.external = decide (v.pExt > v.pInt) := rfl

@[simp] lemma calcResult_maxstress (v : Vessel) :
    v.calcResult.maxstress = maxstressOf v.pExt v.pInt v.OD v.ID := rfl

@[simp] lemma calcResult_averagestress (v : Vessel) :
    v.calcResult.averagestress = averagestressOf v.pExt v.pInt v.OD v.ID := rfl

@[simp] lemma calcResult_k (v : Vessel) :
    v.calcResult.k
      = (if decide (v.pExt > v.pInt) then (0.80 : ℝ) else 0.666666) := rfl

@[simp] lemma calcResult_SF_room (v : Vessel) :
    v.calcResult.SF_room
      = min (v.yieldstress / maxstressOf v.pExt v.pInt v.OD v.ID)
          (v.yieldstress
              * (if decide (v.pExt > v.pInt) then (0.80 : ℝ) else 0.666666)
            / averagestressOf v.pExt v.pInt v.OD v.ID) := rfl

@[simp] lemma calcResult_SF_derated (v : Vessel) :
    v.calcResult.SF_derated
      = min (v.deratedyieldstress / maxstressOf v.pExt v.pInt v.OD v.ID)
          (v.deratedyieldstress
              * (if decide (v.pExt > v.pInt) then (0.80 : ℝ) else 0.666666)
            / averagestressOf v.pExt v.pInt v.OD v.ID) := rfl

@[simp] lemma calcResult_maxExtroom (v : Vessel) :
    v.calcResult.maxExtroom = v.calcResult.SF_room * |v.pExt - v.pInt| := rfl

@[simp] lemma calcResult_maxIntroom (v : Vessel) :
    v.calcResult.maxIntroom = v.calcResult.SF_room * |v.pExt - v.pInt| := rfl

@[simp] lemma calcResult_maxExtderated (v : Vessel) :
    v.calcResult.maxExtderated
      = v.calcResult.SF_derated * |v.pExt - v.pInt| := rfl

@[simp] lemma calcResult_maxIntderated (v : Vessel) :
    v.calcResult.maxIntderated
      = v.calcResult.SF_derated * |v.pExt - v.pInt| := rfl

/-- A recompute on a degenerate denominator raises ZeroDivisionError in
the very first principal-stress evaluation; the object at the raise has
the freshly assigned external flag and nothing else updated. -/
lemma calculate_denom_zero (v : Vessel) (hD : v.OD ^ 2 - v.ID ^ 2 = 0) :
    calculate v = Except.error (PyErr.zeroDivision,
      { v with external := decide (v.pExt > v.pInt) }) := by
  simp [calculate, get_stresses, _principalstressEXT, hD]

/-- get_stresses on a sound denominator stores exactly the max and mean
of the two surface von Mises stresses. -/
lemma get_stresses_ok (v : Vessel) (hD : v.OD ^ 2 - v.ID ^ 2 ≠ 0) :
    get_stresses v = Except.ok
      { v with maxstress := maxstressOf v.pExt v.pInt v.OD v.ID,
               averagestress := averagestressOf v.pExt v.pInt v.OD v.ID } := by
  unfold get_stresses _principalstressEXT _principalstressINT
  rw [if_neg hD, if_neg hD]
  rfl

/-- get_safetyfactors with a zero maxstress raises ZeroDivisionError in
its first division; the margin factor k, assigned beforehand, persists
on the object carried by the error. -/
lemma get_safetyfactors_max_zero (v : Vessel) (hm : v.maxstress = 0) :
    get_safetyfactors v = Except.error (PyErr.zeroDivision,
      { v with k := (if v.external then (0.80 : ℝ) else 0.666666) }) := by
  unfold get_safetyfactors _safetyfactor
  dsimp only
  rw [if_pos hm]

/-- get_safetyfactors with nonzero divisors stores the two min-of-checks
safety factors and the margin factor. -/
lemma get_safetyfactors_ok (v : Vessel) (hm : v.maxstress ≠ 0)
    (ha : v.averagestress ≠ 0) :
    get_safetyfactors v = Except.ok
      { v with k := (if v.external then (0.80 : ℝ) else 0.666666),
               SF_room := min (v.yieldstress / v.maxstress)
                 (v.yieldstress * (if v.external then (0.80 : ℝ) else 0.666666)
                   / v.averagestress),
               SF_derated := min (v.deratedyieldstress / v.maxstress)
                 (v.deratedyieldstress
                     * (if v.external then (0.80 : ℝ) else 0.666666)
                   / v.averagestress) } := by
  unfold get_safetyfactors _safetyfactor
  dsimp only
  rw [if_neg hm, if_neg ha, if_neg hm, if_neg ha]

/-- With a sound denominator but a zero maxstress, the first
_safetyfactor call raises ZeroDivisionError; the object at the raise
carries the flag, both stresses and the margin factor, but no safety
factor or pressure rating. -/
lemma calculate_maxstress_zero (v : Vessel) (hD : v.OD ^ 2 - v.ID ^ 2 ≠ 0)
    (hm : maxstressOf v.pExt v.pInt v.OD v.ID = 0) :
    calculate v = Except.error (PyErr.zeroDivision,
      { v with external := decide (v.pExt > v.pInt),
               maxstress := maxstressOf v.pExt v.pInt v.OD v.ID,
               averagestress := averagestressOf v.pExt v.pInt v.OD v.ID,
               k := (if decide (v.pExt > v.pInt) then (0.80 : ℝ)
                 else 0.666666) }) := by
  unfold calculate
  rw [get_stresses_ok { v with external := decide (v.pExt > v.pInt) } hD]
  dsimp only
  rw [get_safetyfactors_max_zero _ hm]

/-- Master lemma: when the denominator, maxstress and averagestress are
all nonzero, calculate succeeds and returns exactly calcResult. -/
lemma calculate_ok (v : Vessel) (hD : v.OD ^ 2 - v.ID ^ 2 ≠ 0)
    (hm : maxstressOf v.pExt v.pInt v.OD v.ID ≠ 0)
    (ha : averagestressOf v.pExt v.pInt v.OD v.ID ≠ 0) :
    calculate v = Except.ok v.calcResult := by
  unfold calculate
  rw [get_stresses_ok { v with external := decide (v.pExt > v.pInt) } hD]
  dsimp only
  rw [get_safetyfactors_ok _ hm ha]
  rfl

/-- A von Mises stress is a nonnegative square root. -/
lemma vm_nonneg (s1 s2 s3 : ℝ) : 0 ≤ _vonmises s1 s2 s3 :=
  Real.sqrt_nonneg _

lemma vmEXT_nonneg (pExt pInt OD ID : ℝ) : 0 ≤ vmEXT pExt pInt OD ID :=
  vm_nonneg _ _ _

lemma vmINT_nonneg (pExt pInt OD ID : ℝ) : 0 ≤ vmINT pExt pInt OD ID :=
  vm_nonneg _ _ _

/-- Closed form of the inner-surface von Mises stress: the three pairwise
differences of the Lame principal stresses at the inner surface all equal
(up to sign and a factor 2) OD^2 (pInt - pExt) / (OD^2 - ID^2). -/
lemma vmINT_eq (pExt pInt OD ID : ℝ) (hD : OD ^ 2 - ID ^ 2 ≠ 0) :
    vmINT pExt pInt OD ID =
      Real.sqrt (3 * (OD ^ 2 * (pInt - pExt) / (OD ^ 2 - ID ^ 2)) ^ 2) := by
  unfold vmINT _vonmises hoopINT axialINT
  congr 1
  field_simp
  ring

/-- Closed form of the outer-surface von Mises stress. -/
lemma vmEXT_eq (pExt pInt OD ID : ℝ) (hD : OD ^ 2 - ID ^ 2 ≠ 0) :
    vmEXT pExt pInt OD ID =
      Real.sqrt (3 * (ID ^ 2 * (pInt - pExt) / (OD ^ 2 - ID ^ 2)) ^ 2) := by
  unfold vmEXT _vonmises hoopEXT axialEXT
  congr 1
  field_simp
  ring

lemma vmINT_pos (pExt pInt OD ID : ℝ) (hD : OD ^ 2 - ID ^ 2 ≠ 0)
    (hOD : OD ≠ 0) (hpq : pInt ≠ pExt) : 0 < vmINT pExt pInt OD ID := by
  rw [vmINT_eq pExt pInt OD ID hD]
  apply Real.sqrt_pos.mpr
  have h1 : OD ^ 2 * (pInt - pExt) / (OD ^ 2 - ID ^ 2) ≠ 0 :=
    div_ne_zero (mul_ne_zero (pow_ne_zero 2 hOD) (sub_ne_zero.mpr hpq)) hD
  have h2 := (sq_nonneg (OD ^ 2 * (pInt - pExt) / (OD ^ 2 - ID ^ 2))).lt_of_ne
    (Ne.symm (pow_ne_zero 2 h1))
  linarith

lemma vmEXT_pos (pExt pInt OD ID : ℝ) (hD : OD ^ 2 - ID ^ 2 ≠ 0)
    (hID : ID ≠ 0) (hpq : pInt ≠ pExt) : 0 < vmEXT pExt pInt OD ID := by
  rw [vmEXT_eq pExt pInt OD ID hD]
  apply Real.sqrt_pos.mpr
  have h1 : ID ^ 2 * (pInt - pExt) / (OD ^ 2 - ID ^ 2) ≠ 0 :=
    div_ne_zero (mul_ne_zero (pow_ne_zero 2 hID) (sub_ne_zero.mpr hpq)) hD
  have h2 := (sq_nonneg (ID ^ 2 * (pInt - pExt) / (OD ^ 2 - ID ^ 2))).lt_of_ne
    (Ne.symm (pow_ne_zero 2 h1))
  linarith

/-- On a sound denominator with distinct pressures, the stored maxstress
is strictly positive (so in particular nonzero). -/
lemma maxstress_pos (pExt pInt OD ID : ℝ) (hD : OD ^ 2 - ID ^ 2 ≠ 0)
    (hpq : pInt ≠ pExt) : 0 < maxstressOf pExt pInt OD ID := by
  unfold maxstressOf
  rcases eq_or_ne OD 0 with h0 | h0
  · have hID : ID ≠ 0 := by
      intro h1
      apply hD
      rw [h0, h1]
      ring
    exact lt_max_iff.mpr (Or.inl (vmEXT_pos pExt pInt OD ID hD hID hpq))
  · exact lt_max_iff.mpr (Or.inr (vmINT_pos pExt pInt OD ID hD h0 hpq))

/-- On a sound denominator with distinct pressures, the stored
averagestress is strictly positive. -/
lemma averagestress_pos (pExt pInt OD ID : ℝ) (hD : OD ^ 2 - ID ^ 2 ≠ 0)
    (hpq : pInt ≠ pExt) : 0 < averagestressOf pExt pInt OD ID := by
  have hm := maxstress_pos pExt pInt OD ID hD hpq
  have ha := vmEXT_nonneg pExt pInt OD ID
  have hb := vmINT_nonneg pExt pInt OD ID
  unfold maxstressOf at hm
  unfold averagestressOf
  rcases max_cases (vmEXT pExt pInt OD ID) (vmINT pExt pInt OD ID) with
    ⟨h1, _⟩ | ⟨h1, _⟩ <;> rw [h1] at hm <;> linarith

/-- A zero averagestress forces both surface stresses, hence maxstress,
to zero. -/
lemma maxstress_zero_of_avg_zero (pExt pInt OD ID : ℝ)
    (h : averagestressOf pExt pInt OD ID = 0) :
    maxstressOf pExt pInt OD ID = 0 := by
  have ha := vmEXT_nonneg pExt pInt OD ID
  have hb := vmINT_nonneg pExt pInt OD ID
  unfold averagestressOf at h
  unfold maxstressOf
  have h1 : vmEXT pExt pInt OD ID = 0 := by linarith
  have h2 : vmINT pExt pInt OD ID = 0 := by linarith
  rw [h1, h2]
  exact max_self 0

/-- Convenience form of the master lemma: a sound denominator and
distinct pressures guarantee a successful recompute. -/
lemma calculate_ok_of_ne (v : Vessel) (hD : v.OD ^ 2 - v.ID ^ 2 ≠ 0)
    (hpq : v.pInt ≠ v.pExt) : calculate v = Except.ok v.calcResult :=
  calculate_ok v hD
    (ne_of_gt (maxstress_pos v.pExt v.pInt v.OD v.ID hD hpq))
    (ne_of_gt (averagestress_pos v.pExt v.pInt v.OD v.ID hD hpq))

/-- Inversion of the master lemma: any successful calculate returns
exactly calcResult. -/
lemma calculate_ok_inv (v w : Vessel) (h : calculate v = Except.ok w) :
    w = v.calcResult := by
  rcases eq_or_ne (v.OD ^ 2 - v.ID ^ 2) 0 with hD | hD
  · rw [calculate_denom_zero v hD] at h
    exact absurd h (by simp)
  rcases eq_or_ne (maxstressOf v.pExt v.pInt v.OD v.ID) 0 with hm | hm
  · rw [calculate_maxstress_zero v hD hm] at h
    exact absurd h (by simp)
  have ha : averagestressOf v.pExt v.pInt v.OD v.ID ≠ 0 := by
    intro h0
    exact hm (maxstress_zero_of_avg_zero _ _ _ _ h0)
  rw [calculate_ok v hD hm ha] at h
  exact (Except.ok.inj h).symm

/-- Under a fixed external pressure and geometry, the stored maxstress is
monotone in the internal pressure on the side pInt >= pExt. -/
lemma maxstress_mono (pExt OD ID p1 p2 : ℝ) (hD : OD ^ 2 - ID ^ 2 ≠ 0)
    (hq1 : pExt ≤ p1) (h12 : p1 ≤ p2) :
    maxstressOf pExt p1 OD ID ≤ maxstressOf pExt p2 OD ID := by
  have hsq : (p1 - pExt) ^ 2 ≤ (p2 - pExt) ^ 2 :=
    pow_le_pow_left (by linarith) (by linarith) 2
  have hD2 : 0 < (OD ^ 2 - ID ^ 2) ^ 2 :=
    (sq_nonneg _).lt_of_ne (Ne.symm (pow_ne_zero 2 hD))
  have key : ∀ c : ℝ, 3 * (c * (p1 - pExt) / (OD ^ 2 - ID ^ 2)) ^ 2
      ≤ 3 * (c * (p2 - pExt) / (OD ^ 2 - ID ^ 2)) ^ 2 := by
    intro c
    rw [div_pow, mul_pow, div_pow, mul_pow]
    exact mul_le_mul_of_nonneg_left
      ((div_le_div_right hD2).mpr (mul_le_mul_of_nonneg_left hsq (sq_nonneg c)))
      (by norm_num)
  unfold maxstressOf
  apply max_le_max
  · rw [vmEXT_eq _ _ _ _ hD, vmEXT_eq _ _ _ _ hD]
    exact Real.sqrt_le_sqrt (key (ID ^ 2))
  · rw [vmINT_eq _ _ _ _ hD, vmINT_eq _ _ _ _ hD]
    exact Real.sqrt_le_sqrt (key (OD ^ 2))

end Vessel

/-- Function check_diameters from gui.py: if new_OD <= new_ID return 0
without touching the vessel, else update the diameters through
modify_parameters and return the new SF_room (the mutated vessel is
returned alongside the value to model the in-place mutation). -/
noncomputable def check_diameters (vessel : Vessel) (new_ID new_OD : ℝ) :
    Except (PyErr × Vessel) (Vessel × ℝ) :=
  if new_OD ≤ new_ID then Except.ok (vessel, 0)
  else
    match vessel.modify_parameters none none (some new_OD) (some new_ID)
        none none with
    | Except.error r => Except.error r
    | Except.ok w => Except.ok (w, w.SF_room)

/-- Claim C4: for every input set with OD > ID > 0 the principal-stress
triples equal the thick-wall Lame closed forms (inner surface: hoop,
axial, radial = -pInt; outer surface: hoop, axial, radial = -pExt), and
the axial stress at the outer surface equals the axial stress at the
inner surface. -/
theorem claim_C4_lame_principal_stresses (v : Vessel)
    (hID : 0 < v.ID) (hOD : v.ID < v.OD) :
    v._principalstressINT = Except.ok
      (v.pInt * (v.OD ^ 2 + v.ID ^ 2) / (v.OD ^ 2 - v.ID ^ 2)
          - 2 * v.pExt * v.OD ^ 2 / (v.OD ^ 2 - v.ID ^ 2),
        v.pInt * v.ID ^ 2 / (v.OD ^ 2 - v.ID ^ 2)
          - v.pExt * v.OD ^ 2 / (v.OD ^ 2 - v.ID ^ 2),
        -v.pInt) ∧
    v._principalstressEXT = Except.ok
      (2 * v.pInt * v.ID ^ 2 / (v.OD ^ 2 - v.ID ^ 2)
          - v.pExt * (v.OD ^ 2 + v.ID ^ 2) / (v.OD ^ 2 - v.ID ^ 2),
        v.pInt * v.ID ^ 2 / (v.OD ^ 2 - v.ID ^ 2)
          - v.pExt * v.OD ^ 2 / (v.OD ^ 2 - v.ID ^ 2),
        -v.pExt) ∧
    Vessel.axialEXT v.pExt v.pInt v.OD v.ID
      = Vessel.axialINT v.pExt v.pInt v.OD v.ID := by
  have h1 : v.ID ^ 2 < v.OD ^ 2 := by nlinarith
  have hD : v.OD ^ 2 - v.ID ^ 2 ≠ 0 := ne_of_gt (by linarith)
  refine ⟨?_, ?_, rfl⟩
  · unfold Vessel._principalstressINT
    rw [if_neg hD]
    rfl
  · unfold Vessel._principalstressEXT
    rw [if_neg hD]
    rfl

/-- Concrete vessel used to witness claim C4. -/
noncomputable def vC4 : Vessel :=
  { pExt := 3, pInt := 5, OD := 2, ID := 1, yieldstress := 120,
    deratedyieldstress := 116 }

/-- Witness for claim C4 at a concrete input. -/
theorem claim_C4_lame_principal_stresses_witness :
    0 < vC4.ID ∧ vC4.ID < vC4.OD ∧
    (vC4._principalstressINT = Except.ok
      (vC4.pInt * (vC4.OD ^ 2 + vC4.ID ^ 2) / (vC4.OD ^ 2 - vC4.ID ^ 2)
          - 2 * vC4.pExt * vC4.OD ^ 2 / (vC4.OD ^ 2 - vC4.ID ^ 2),
        vC4.pInt * vC4.ID ^ 2 / (vC4.OD ^ 2 - vC4.ID ^ 2)
          - vC4.pExt * vC4.OD ^ 2 / (vC4.OD ^ 2 - vC4.ID ^ 2),
        -vC4.pInt) ∧
    vC4._principalstressEXT = Except.ok
      (2 * vC4.pInt * vC4.ID ^ 2 / (vC4.OD ^ 2 - vC4.ID ^ 2)
          - vC4.pExt * (vC4.OD ^ 2 + vC4.ID ^ 2) / (vC4.OD ^ 2 - vC4.ID ^ 2),
        vC4.pInt * vC4.ID ^ 2 / (vC4.OD ^ 2 - vC4.ID ^ 2)
          - vC4.pExt * vC4.OD ^ 2 / (vC4.OD ^ 2 - vC4.ID ^ 2),
        -vC4.pExt) ∧
    Vessel.axialEXT vC4.pExt vC4.pInt vC4.OD vC4.ID
      = Vessel.axialINT vC4.pExt vC4.pInt vC4.OD vC4.ID) :=
  ⟨by norm_num [vC4], by norm_num [vC4],
    claim_C4_lame_principal_stresses vC4 (by norm_num [vC4])
      (by norm_num [vC4])⟩

/-- Claim C5 as written is false: in internal mode the margin factor the
code stores is the literal 0.666666, which is not 2/3.  Concretely, with
pExt = 0 < pInt = 1 the flag is false and k = 0.666666, not 2/3. -/
theorem claim_C5_counterexample :
    ∃ w, Vessel.calculate
      { pExt := 0, pInt := 1, OD := 2, ID := 1, yieldstress := 120,
        deratedyieldstress := 116 } = Except.ok w ∧
      w.external = false ∧ w.k = 0.666666 ∧ w.k ≠ 2 / 3 := by
  refine ⟨Vessel.calcResult
      { pExt := 0, pInt := 1, OD := 2, ID := 1, yieldstress := 120,
        deratedyieldstress := 116 },
    Vessel.calculate_ok_of_ne _ ?_ ?_, ?_, ?_, ?_⟩
  · norm_num
  · norm_num
  · rw [Vessel.calcResult_external]
    norm_num
  · rw [Vessel.calcResult_k]
    norm_num [decide_eq_true_eq]
  · rw [Vessel.calcResult_k]
    norm_num [decide_eq_true_eq]

/-- Claim C5 amended: the load-direction flag is true iff pExt > pInt
(strictly, so pExt = pInt selects the internal mode), and the margin
factor k equals 0.80 when the flag is true and equals the literal
0.666666 (a six-decimal truncation of 2/3, not 2/3 itself) otherwise.
This holds on every recompute with a sound denominator: either the
recompute completes and returns the object, or (exactly when the
stresses vanish, e.g. at pExt = pInt) the safety-factor division raises
after the flag and k were already assigned, and the object carried by
the error shows the same flag and k.  In particular the boundary case
pExt = pInt assigns external = false and k = 0.666666. -/
theorem claim_C5_amended_flag_and_margin (v : Vessel)
    (hD : v.OD ^ 2 - v.ID ^ 2 ≠ 0) :
    ∃ w, (Vessel.calculate v = Except.ok w ∨
        Vessel.calculate v = Except.error (PyErr.zeroDivision, w)) ∧
      (w.external = true ↔ v.pExt > v.pInt) ∧
      w.k = (if v.pExt > v.pInt then (0.80 : ℝ) else 0.666666) := by
  rcases eq_or_ne (Vessel.maxstressOf v.pExt v.pInt v.OD v.ID) 0 with hm | hm
  · refine ⟨_, Or.inr (Vessel.calculate_maxstress_zero v hD hm), ?_, ?_⟩
    · simp
    · by_cases h : v.pExt > v.pInt
      · simp [h]
      · simp [h]
  · have ha : Vessel.averagestressOf v.pExt v.pInt v.OD v.ID ≠ 0 :=
      fun h0 => hm (Vessel.maxstress_zero_of_avg_zero _ _ _ _ h0)
    refine ⟨v.calcResult, Or.inl (Vessel.calculate_ok v hD hm ha), ?_, ?_⟩
    · rw [Vessel.calcResult_external]
      simp
    · rw [Vessel.calcResult_k]
      by_cases h : v.pExt > v.pInt
      · simp [h]
      · simp [h]

/-- Concrete vessel with equal pressures, exercising the boundary case
of the amended claim C5 (the error branch with internal-mode k). -/
noncomputable def vC5 : Vessel :=
  { pExt := 5, pInt := 5, OD := 2, ID := 1, yieldstress := 120,
    deratedyieldstress := 116 }

/-- Witness for the amended claim C5 at a concrete input with
pExt = pInt, the boundary the amended claim singles out. -/
theorem claim_C5_amended_flag_and_margin_witness :
    vC5.OD ^ 2 - vC5.ID ^ 2 ≠ 0 ∧
    (∃ w, (Vessel.calculate vC5 = Except.ok w ∨
        Vessel.calculate vC5 = Except.error (PyErr.zeroDivision, w)) ∧
      (w.external = true ↔ vC5.pExt > vC5.pInt) ∧
      w.k = (if vC5.pExt > vC5.pInt then (0.80 : ℝ) else 0.666666)) :=
  ⟨by norm_num [vC5],
    claim_C5_amended_flag_and_margin vC5 (by norm_num [vC5])⟩

/-- Claim C2 as written is false: there is no InvalidGeometry check, and
an input with OD < ID is not rejected; the recompute proceeds and
produces derived values.  Concretely OD = 1 < ID = 2 with pExt = 0,
pInt = 1 recomputes successfully. -/
theorem claim_C2_counterexample :
    ∃ w, Vessel.calculate
      { pExt := 0, pInt := 1, OD := 1, ID := 2, yieldstress := 120,
        deratedyieldstress := 116 } = Except.ok w :=
  ⟨_, Vessel.calculate_ok_of_ne _ (by norm_num) (by norm_num)⟩

/-- Claim C2 amended: the engine performs no geometry validation and no
InvalidGeometry failure exists.  On any input with OD^2 = ID^2 (in
particular OD = ID) the recompute raises a division-by-zero error in the
first principal-stress evaluation; the raise happens after the
load-direction flag was assigned, so that partial derived-state update
persists on the object carried by the error, while every stress and
safety-factor field keeps its prior value.  An input with OD < ID and
OD^2 different from ID^2 is not rejected as geometry: whenever the
pressures also differ the recompute completes and produces derived
values. -/
theorem claim_C2_amended_degenerate_geometry (v : Vessel) :
    (v.OD ^ 2 - v.ID ^ 2 = 0 →
      Vessel.calculate v = Except.error (PyErr.zeroDivision,
        { v with external := decide (v.pExt > v.pInt) })) ∧
    (v.OD ^ 2 - v.ID ^ 2 ≠ 0 → v.pInt ≠ v.pExt →
      ∃ w, Vessel.calculate v = Except.ok w) :=
  ⟨fun hD => Vessel.calculate_denom_zero v hD,
    fun hD hpq => ⟨v.calcResult, Vessel.calculate_ok_of_ne v hD hpq⟩⟩

/-- Concrete vessel (OD = ID = 1) for the failing half of the amended
claim C2. -/
noncomputable def vC2 : Vessel :=
  { pExt := 0, pInt := 3, OD := 1, ID := 1, yieldstress := 120,
    deratedyieldstress := 116 }

/-- Concrete vessel (OD = 1 < ID = 2) for the accepted-geometry half of
the amended claim C2. -/
noncomputable def vC2b : Vessel :=
  { pExt := 0, pInt := 1, OD := 1, ID := 2, yieldstress := 120,
    deratedyieldstress := 116 }

/-- Witness for the amended claim C2, exercising both halves at concrete
inputs: OD = ID = 1 raises with only the flag updated, and OD = 1 <
ID = 2 with distinct pressures recomputes successfully. -/
theorem claim_C2_amended_degenerate_geometry_witness :
    (vC2.OD ^ 2 - vC2.ID ^ 2 = 0 ∧
      Vessel.calculate vC2 = Except.error (PyErr.zeroDivision,
        { vC2 with external := decide (vC2.pExt > vC2.pInt) })) ∧
    (vC2b.OD ^ 2 - vC2b.ID ^ 2 ≠ 0 ∧ vC2b.pInt ≠ vC2b.pExt ∧
      ∃ w, Vessel.calculate vC2b = Except.ok w) :=
  ⟨⟨by norm_num [vC2],
      (claim_C2_amended_degenerate_geometry vC2).1 (by norm_num [vC2])⟩,
    ⟨by norm_num [vC2b], by norm_num [vC2b],
      (claim_C2_amended_degenerate_geometry vC2b).2 (by norm_num [vC2b])
        (by norm_num [vC2b])⟩⟩

/-- Claim C3 as written is false: a zero stress divisor is not turned
into an infinite safety factor; the division raises.  Concretely
create(0, 0, 2.0, 1.0, 120, 116) yields zero stresses and the first
_safetyfactor division raises ZeroDivisionError instead of returning a
sentinel. -/
theorem claim_C3_counterexample :
    ∃ s, Vessel.create 0 0 2 1 120 116
        = Except.error (PyErr.zeroDivision, s) ∧
      s.maxstress = 0 ∧ s.averagestress = 0 := by
  have hm : Vessel.maxstressOf 0 0 2 1 = 0 := by
    unfold Vessel.maxstressOf Vessel.vmEXT Vessel.vmINT Vessel._vonmises
      Vessel.hoopEXT Vessel.hoopINT Vessel.axialEXT Vessel.axialINT
    norm_num
  have ha : Vessel.averagestressOf 0 0 2 1 = 0 := by
    unfold Vessel.averagestressOf Vessel.vmEXT Vessel.vmINT Vessel._vonmises
      Vessel.hoopEXT Vessel.hoopINT Vessel.axialEXT Vessel.axialINT
    norm_num
  have h := Vessel.calculate_maxstress_zero
    ({ pExt := 0, pInt := 0, OD := 2, ID := 1, yieldstress := 120,
       deratedyieldstress := 116 } : Vessel) (by norm_num) hm
  exact ⟨_, h, hm, ha⟩

/-- Claim C3 amended: on a sound denominator, whenever the computed
maxstress divisor is exactly zero the safety-factor computation raises
ZeroDivisionError (the recompute fails) rather than returning an
unbounded sentinel; the object at the raise carries the flag, the zero
stresses and the already assigned margin factor, but no safety factor or
pressure rating. -/
theorem claim_C3_amended_zero_stress_raises (v : Vessel)
    (hD : v.OD ^ 2 - v.ID ^ 2 ≠ 0)
    (hm : Vessel.maxstressOf v.pExt v.pInt v.OD v.ID = 0) :
    Vessel.calculate v = Except.error (PyErr.zeroDivision,
      { v with external := decide (v.pExt > v.pInt),
               maxstress := Vessel.maxstressOf v.pExt v.pInt v.OD v.ID,
               averagestress :=
                 Vessel.averagestressOf v.pExt v.pInt v.OD v.ID,
               k := (if decide (v.pExt > v.pInt) then (0.80 : ℝ)
                 else 0.666666) }) :=
  Vessel.calculate_maxstress_zero v hD hm

/-- Concrete vessel (both pressures zero) witnessing the amended claim
C3. -/
noncomputable def vC3 : Vessel :=
  { pExt := 0, pInt := 0, OD := 3, ID := 1, yieldstress := 120,
    deratedyieldstress := 116 }

/-- Witness for the amended claim C3 at a concrete input. -/
theorem claim_C3_amended_zero_stress_raises_witness :
    vC3.OD ^ 2 - vC3.ID ^ 2 ≠ 0 ∧
    Vessel.maxstressOf vC3.pExt vC3.pInt vC3.OD vC3.ID = 0 ∧
    Vessel.calculate vC3 = Except.error (PyErr.zeroDivision,
      { vC3 with external := decide (vC3.pExt > vC3.pInt),
                 maxstress := Vessel.maxstressOf vC3.pExt vC3.pInt vC3.OD
                   vC3.ID,
                 averagestress := Vessel.averagestressOf vC3.pExt vC3.pInt
                   vC3.OD vC3.ID,
                 k := (if decide (vC3.pExt > vC3.pInt) then (0.80 : ℝ)
                   else 0.666666) }) := by
  have hm : Vessel.maxstressOf vC3.pExt vC3.pInt vC3.OD vC3.ID = 0 := by
    unfold vC3 Vessel.maxstressOf Vessel.vmEXT Vessel.vmINT Vessel._vonmises
      Vessel.hoopEXT Vessel.hoopINT Vessel.axialEXT Vessel.axialINT
    norm_num
  exact ⟨by norm_num [vC3], hm,
    claim_C3_amended_zero_stress_raises vC3 (by norm_num [vC3]) hm⟩

/-- Claim C6: on every successful recompute the stored maxstress and
averagestress are the max and mean of the outer and inner surface von
Mises stresses of the principal triples, and each composite safety
factor is the min of the peak-stress check against full yield and the
membrane check against yield derated by k. -/
theorem claim_C6_composite_safety_factor (v : Vessel)
    (hD : v.OD ^ 2 - v.ID ^ 2 ≠ 0) (hpq : v.pInt ≠ v.pExt) :
    ∃ w, Vessel.calculate v = Except.ok w ∧
      w.maxstress = max
        (Vessel._vonmises (Vessel.hoopEXT v.pExt v.pInt v.OD v.ID)
          (Vessel.axialEXT v.pExt v.pInt v.OD v.ID) (-v.pExt))
        (Vessel._vonmises (Vessel.hoopINT v.pExt v.pInt v.OD v.ID)
          (Vessel.axialINT v.pExt v.pInt v.OD v.ID) (-v.pInt)) ∧
      w.averagestress =
        (Vessel._vonmises (Vessel.hoopEXT v.pExt v.pInt v.OD v.ID)
            (Vessel.axialEXT v.pExt v.pInt v.OD v.ID) (-v.pExt)
          + Vessel._vonmises (Vessel.hoopINT v.pExt v.pInt v.OD v.ID)
            (Vessel.axialINT v.pExt v.pInt v.OD v.ID) (-v.pInt)) / 2 ∧
      w.SF_room = min (w.yieldstress / w.maxstress)
        (w.yieldstress * w.k / w.averagestress) ∧
      w.SF_derated = min (w.deratedyieldstress / w.maxstress)
        (w.deratedyieldstress * w.k / w.averagestress) :=
  ⟨v.calcResult, Vessel.calculate_ok_of_ne v hD hpq, rfl, rfl, rfl, rfl⟩

/-- Concrete vessel used to witness claim C6. -/
noncomputable def vC6 : Vessel :=
  { pExt := 0, pInt := 2, OD := 2, ID := 1, yieldstress := 120,
    deratedyieldstress := 116 }

/-- Witness for claim C6 at a concrete input. -/
theorem claim_C6_composite_safety_factor_witness :
    vC6.OD ^ 2 - vC6.ID ^ 2 ≠ 0 ∧ vC6.pInt ≠ vC6.pExt ∧
    (∃ w, Vessel.calculate vC6 = Except.ok w ∧
      w.maxstress = max
        (Vessel._vonmises (Vessel.hoopEXT vC6.pExt vC6.pInt vC6.OD vC6.ID)
          (Vessel.axialEXT vC6.pExt vC6.pInt vC6.OD vC6.ID) (-vC6.pExt))
        (Vessel._vonmises (Vessel.hoopINT vC6.pExt vC6.pInt vC6.OD vC6.ID)
          (Vessel.axialINT vC6.pExt vC6.pInt vC6.OD vC6.ID) (-vC6.pInt)) ∧
      w.averagestress =
        (Vessel._vonmises (Vessel.hoopEXT vC6.pExt vC6.pInt vC6.OD vC6.ID)
            (Vessel.axialEXT vC6.pExt vC6.pInt vC6.OD vC6.ID) (-vC6.pExt)
          + Vessel._vonmises (Vessel.hoopINT vC6.pExt vC6.pInt vC6.OD vC6.ID)
            (Vessel.axialINT vC6.pExt vC6.pInt vC6.OD vC6.ID) (-vC6.pInt))
          / 2 ∧
      w.SF_room = min (w.yieldstress / w.maxstress)
        (w.yieldstress * w.k / w.averagestress) ∧
      w.SF_derated = min (w.deratedyieldstress / w.maxstress)
        (w.deratedyieldstress * w.k / w.averagestress)) :=
  ⟨by norm_num [vC6], by norm_num [vC6],
    claim_C6_composite_safety_factor vC6 (by norm_num [vC6])
      (by norm_num [vC6])⟩

/-- Claim C7: on every successful recompute the four maximum-pressure
ratings all equal the matching safety factor times the absolute
differential pressure, so the external and internal ratings coincide at
each temperature condition. -/
theorem claim_C7_max_pressures (v : Vessel)
    (hD : v.OD ^ 2 - v.ID ^ 2 ≠ 0) (hpq : v.pInt ≠ v.pExt) :
    ∃ w, Vessel.calculate v = Except.ok w ∧
      w.maxExtroom = w.SF_room * |v.pExt - v.pInt| ∧
      w.maxIntroom = w.SF_room * |v.pExt - v.pInt| ∧
      w.maxExtderated = w.SF_derated * |v.pExt - v.pInt| ∧
      w.maxIntderated = w.SF_derated * |v.pExt - v.pInt| ∧
      w.maxExtroom = w.maxIntroom ∧ w.maxExtderated = w.maxIntderated :=
  ⟨v.calcResult, Vessel.calculate_ok_of_ne v hD hpq,
    rfl, rfl, rfl, rfl, rfl, rfl⟩

/-- Concrete vessel used to witness claim C7. -/
noncomputable def vC7 : Vessel :=
  { pExt := 3, pInt := 1, OD := 2, ID := 1, yieldstress := 120,
    deratedyieldstress := 116 }

/-- Witness for claim C7 at a concrete input. -/
theorem claim_C7_max_pressures_witness :
    vC7.OD ^ 2 - vC7.ID ^ 2 ≠ 0 ∧ vC7.pInt ≠ vC7.pExt ∧
    (∃ w, Vessel.calculate vC7 = Except.ok w ∧
      w.maxExtroom = w.SF_room * |vC7.pExt - vC7.pInt| ∧
      w.maxIntroom = w.SF_room * |vC7.pExt - vC7.pInt| ∧
      w.maxExtderated = w.SF_derated * |vC7.pExt - vC7.pInt| ∧
      w.maxIntderated = w.SF_derated * |vC7.pExt - vC7.pInt| ∧
      w.maxExtroom = w.maxIntroom ∧ w.maxExtderated = w.maxIntderated) :=
  ⟨by norm_num [vC7], by norm_num [vC7],
    claim_C7_max_pressures vC7 (by norm_num [vC7]) (by norm_num [vC7])⟩

/-- Claim C8: with fixed pExt, geometry OD > ID > 0 and material inputs,
recomputing at two internal pressures pExt < p1 <= p2 never decreases
the stored maxstress. -/
theorem claim_C8_maxstress_monotone (v : Vessel) (p1 p2 : ℝ)
    (hID : 0 < v.ID) (hOD : v.ID < v.OD) (hq : v.pExt < p1)
    (h12 : p1 ≤ p2) :
    ∃ w1 w2, Vessel.calculate { v with pInt := p1 } = Except.ok w1 ∧
      Vessel.calculate { v with pInt := p2 } = Except.ok w2 ∧
      w1.maxstress ≤ w2.maxstress := by
  have h1 : v.ID ^ 2 < v.OD ^ 2 := by nlinarith
  have hD : v.OD ^ 2 - v.ID ^ 2 ≠ 0 := ne_of_gt (by linarith)
  have hq2 : v.pExt < p2 := lt_of_lt_of_le hq h12
  refine ⟨Vessel.calcResult { v with pInt := p1 },
    Vessel.calcResult { v with pInt := p2 },
    Vessel.calculate_ok_of_ne _ hD (ne_of_gt hq),
    Vessel.calculate_ok_of_ne _ hD (ne_of_gt hq2), ?_⟩
  have e1 : (Vessel.calcResult { v with pInt := p1 }).maxstress
      = Vessel.maxstressOf v.pExt p1 v.OD v.ID := rfl
  have e2 : (Vessel.calcResult { v with pInt := p2 }).maxstress
      = Vessel.maxstressOf v.pExt p2 v.OD v.ID := rfl
  rw [e1, e2]
  exact Vessel.maxstress_mono v.pExt v.OD v.ID p1 p2 hD (le_of_lt hq) h12

/-- Concrete base vessel used to witness claim C8. -/
noncomputable def vC8 : Vessel :=
  { pExt := 0, pInt := 7, OD := 2, ID := 1, yieldstress := 120,
    deratedyieldstress := 116 }

/-- Witness for claim C8 at a concrete input (p1 = 1, p2 = 2). -/
theorem claim_C8_maxstress_monotone_witness :
    0 < vC8.ID ∧ vC8.ID < vC8.OD ∧ vC8.pExt < 1 ∧ (1 : ℝ) ≤ 2 ∧
    (∃ w1 w2, Vessel.calculate { vC8 with pInt := 1 } = Except.ok w1 ∧
      Vessel.calculate { vC8 with pInt := 2 } = Except.ok w2 ∧
      w1.maxstress ≤ w2.maxstress) :=
  ⟨by norm_num [vC8], by norm_num [vC8], by norm_num [vC8], by norm_num,
    claim_C8_maxstress_monotone vC8 1 2 (by norm_num [vC8])
      (by norm_num [vC8]) (by norm_num [vC8]) (by norm_num)⟩

/-- Claim C9: every successful recompute stores stresses satisfying
0 <= averagestress <= maxstress <= 2 * averagestress, because each
surface von Mises stress is a nonnegative square root and the stored
values are the max and mean of the two surface values. -/
theorem claim_C9_stress_invariant (v w : Vessel)
    (h : Vessel.calculate v = Except.ok w) :
    0 ≤ w.averagestress ∧ w.averagestress ≤ w.maxstress ∧
      w.maxstress ≤ 2 * w.averagestress := by
  have hw := Vessel.calculate_ok_inv v w h
  subst hw
  have ha := Vessel.vmEXT_nonneg v.pExt v.pInt v.OD v.ID
  have hb := Vessel.vmINT_nonneg v.pExt v.pInt v.OD v.ID
  have e1 : (Vessel.calcResult v).maxstress
      = max (Vessel.vmEXT v.pExt v.pInt v.OD v.ID)
          (Vessel.vmINT v.pExt v.pInt v.OD v.ID) := rfl
  have e2 : (Vessel.calcResult v).averagestress
      = (Vessel.vmEXT v.pExt v.pInt v.OD v.ID
          + Vessel.vmINT v.pExt v.pInt v.OD v.ID) / 2 := rfl
  rw [e1, e2]
  rcases max_cases (Vessel.vmEXT v.pExt v.pInt v.OD v.ID)
      (Vessel.vmINT v.pExt v.pInt v.OD v.ID) with ⟨h1, h2⟩ | ⟨h1, h2⟩ <;>
    rw [h1] <;>
    exact ⟨by linarith, by linarith, by linarith⟩

/-- Concrete vessel used to witness claim C9. -/
noncomputable def vC9 : Vessel :=
  { pExt := 0, pInt := 4, OD := 2, ID := 1, yieldstress := 120,
    deratedyieldstress := 116 }

/-- Witness for claim C9 at a concrete input. -/
theorem claim_C9_stress_invariant_witness :
    Vessel.calculate vC9 = Except.ok vC9.calcResult ∧
    (0 ≤ vC9.calcResult.averagestress ∧
      vC9.calcResult.averagestress ≤ vC9.calcResult.maxstress ∧
      vC9.calcResult.maxstress ≤ 2 * vC9.calcResult.averagestress) := by
  have h : Vessel.calculate vC9 = Except.ok vC9.calcResult :=
    Vessel.calculate_ok_of_ne vC9 (by norm_num [vC9]) (by norm_num [vC9])
  exact ⟨h, claim_C9_stress_invariant vC9 vC9.calcResult h⟩

/-- Concrete vessel used to exhibit the truthiness bug of claim C1. -/
noncomputable def vC1 : Vessel :=
  { pExt := 1, pInt := 2, OD := 2, ID := 1, yieldstress := 120,
    deratedyieldstress := 116 }

/-- Claim C1 fails on the code: modify_parameters tests each keyword
argument with Python truthiness (if kwarg:), so an override whose new
value is 0.0 is silently ignored.  Starting from pExt = 1, the call
modify_parameters(pExt = 0) recomputes successfully but leaves pExt at
its old value 1 instead of setting it to 0. -/
theorem claim_C1_zero_override_ignored :
    ∃ w, Vessel.modify_parameters vC1
      (some 0) none none none none none = Except.ok w ∧
      w.pExt = 1 ∧ w.pExt ≠ 0 := by
  have e : Vessel.modify_parameters vC1 (some 0) none none none none none
      = Vessel.calculate vC1 := by
    unfold Vessel.modify_parameters Vessel.overrideTruthy
    norm_num
  refine ⟨vC1.calcResult, ?_, rfl, by norm_num [vC1]⟩
  rw [e]
  exact Vessel.calculate_ok_of_ne vC1 (by norm_num [vC1]) (by norm_num [vC1])

/-- Concrete vessel used for the counterexample to claim C10. -/
noncomputable def vC10 : Vessel :=
  { pExt := 0, pInt := 1, OD := 2, ID := 1.5, yieldstress := 120,
    deratedyieldstress := 116 }

/-- Claim C10 as written is false in its update half: with new_ID = 0
and new_OD = 1 the guard passes (1 > 0), check_diameters calls
modify_parameters, but the truthiness test ignores the zero diameter, so
the vessel keeps ID = 1.5 instead of taking the new value 0. -/
theorem claim_C10_counterexample :
    ∃ w, check_diameters vC10 0 1 = Except.ok (w, w.SF_room) ∧
      w.ID = 1.5 ∧ w.ID ≠ 0 ∧ w.OD = 1 := by
  have e : Vessel.modify_parameters vC10 none none (some 1) (some 0)
        none none
      = Vessel.calculate { vC10 with OD := 1 } := by
    unfold Vessel.modify_parameters Vessel.overrideTruthy vC10
    norm_num
  have hcalc : Vessel.calculate { vC10 with OD := 1 }
      = Except.ok (Vessel.calcResult { vC10 with OD := 1 }) :=
    Vessel.calculate_ok_of_ne _ (by norm_num [vC10]) (by norm_num [vC10])
  refine ⟨Vessel.calcResult { vC10 with OD := 1 }, ?_, rfl,
    by norm_num [vC10], rfl⟩
  unfold check_diameters
  rw [if_neg (by norm_num : ¬((1 : ℝ) ≤ 0)), e, hcalc]

/-- Claim C10 amended: for new_OD <= new_ID, check_diameters returns 0
and leaves the vessel untouched; for new_OD > new_ID it calls
modify_parameters with the new diameters (which take effect only when
nonzero, a zero value being ignored by the truthiness test) and, when
the recompute succeeds, returns the mutated vessel together with its
recomputed room-temperature safety factor. -/
theorem claim_C10_amended_guard (v : Vessel) (nID nOD : ℝ) :
    (nOD ≤ nID → check_diameters v nID nOD = Except.ok (v, 0)) ∧
    (nID < nOD → nID ≠ 0 → nOD ≠ 0 → nOD ^ 2 - nID ^ 2 ≠ 0 →
      v.pInt ≠ v.pExt →
      ∃ w, check_diameters v nID nOD = Except.ok (w, w.SF_room) ∧
        w.OD = nOD ∧ w.ID = nID ∧ w.pExt = v.pExt ∧ w.pInt = v.pInt ∧
        w.yieldstress = v.yieldstress ∧
        w.deratedyieldstress = v.deratedyieldstress) := by
  constructor
  · intro hle
    unfold check_diameters
    rw [if_pos hle]
  · intro hlt hID0 hOD0 hD hpq
    have e : Vessel.modify_parameters v none none (some nOD) (some nID)
          none none
        = Vessel.calculate { v with OD := nOD, ID := nID } := by
      unfold Vessel.modify_parameters Vessel.overrideTruthy
      dsimp only
      rw [if_neg hOD0, if_neg hID0]
    have hcalc : Vessel.calculate { v with OD := nOD, ID := nID }
        = Except.ok (Vessel.calcResult { v with OD := nOD, ID := nID }) :=
      Vessel.calculate_ok_of_ne _ hD hpq
    refine ⟨Vessel.calcResult { v with OD := nOD, ID := nID }, ?_,
      rfl, rfl, rfl, rfl, rfl, rfl⟩
    unfold check_diameters
    rw [if_neg (not_le.mpr hlt), e, hcalc]

/-- Concrete vessel used to witness the amended claim C10. -/
noncomputable def vC10w : Vessel :=
  { pExt := 0, pInt := 1, OD := 3, ID := 2, yieldstress := 120,
    deratedyieldstress := 116 }

/-- Witness for the amended claim C10, exercising both halves
non-vacuously at concrete inputs: the guard branch at
(new_ID, new_OD) = (2, 1), which returns 0 with the vessel untouched,
and the update branch at (new_ID, new_OD) = (1, 2). -/
theorem claim_C10_amended_guard_witness :
    ((1 : ℝ) ≤ 2 ∧ check_diameters vC10w 2 1 = Except.ok (vC10w, 0)) ∧
    ((1 : ℝ) < 2 ∧ (1 : ℝ) ≠ 0 ∧ (2 : ℝ) ≠ 0 ∧
      (2 : ℝ) ^ 2 - 1 ^ 2 ≠ 0 ∧ vC10w.pInt ≠ vC10w.pExt) ∧
    (∃ w, check_diameters vC10w 1 2 = Except.ok (w, w.SF_room) ∧
      w.OD = 2 ∧ w.ID = 1 ∧ w.pExt = vC10w.pExt ∧ w.pInt = vC10w.pInt ∧
      w.yieldstress = vC10w.yieldstress ∧
      w.deratedyieldstress = vC10w.deratedyieldstress) :=
  ⟨⟨by norm_num, (claim_C10_amended_guard vC10w 2 1).1 (by norm_num)⟩,
    ⟨by norm_num, by norm_num, by norm_num, by norm_num,
      by norm_num [vC10w]⟩,
    (claim_C10_amended_guard vC10w 1 2).2 (by norm_num) (by norm_num)
      (by norm_num) (by norm_num) (by norm_num [vC10w])⟩
